import Mathlib

/-!
Verification development for the `fetch_depth_layer` depth-camera costmap
layer (`src/fetch_depth_layer/src/depth_layer.cpp`).

The per-frame pipeline of `FetchDepthLayer::depthImageCallback` and the
intrinsics update of `FetchDepthLayer::cameraInfoCallback` are shallowly
embedded below.  Floating-point samples are modelled as exact rationals
extended with a NaN element (`Flt`), keeping the C/C++ comparison
semantics that the control flow depends on: any ordered comparison or
equality involving NaN is false, hence `f != 0.0` is TRUE for NaN.

External collaborators are modelled as oracle inputs:
  * the OpenCV plane estimator (`cv::RgbdPlane`) as the list of candidate
    plane coefficients it returns for the frame;
  * the tf transform provider as two partial functions that either return
    a value or fail (a failure in the C++ code raises an exception that is
    not caught inside the callback);
  * `sensor_msgs::convertPointCloudToPointCloud2` as a boolean success
    predicate on the cloud being converted.

Out-of-range neighbour accesses in the outlier filter are undefined
behaviour in the C++ source; following the specification's explicit
modelling note, an out-of-range neighbour is treated as an invalid
(all-zero) point, i.e. never "supporting".
-/

/-- A 32-bit float sample modelled as an exact rational or NaN.  Rounding
is not modelled; the claims under study only depend on exact zero tests,
NaN tests and threshold comparisons. -/
inductive Flt where
  | nan : Flt
  | num : ℚ → Flt
deriving DecidableEq, Repr

/-- `isnan` from the C code. -/
def Flt.isNaN : Flt → Bool
  | .nan => true
  | .num _ => false

/-- Rational addition written through `mkRat` so that it evaluates by
kernel reduction (the standard `Rat.add` is `@[irreducible]`); proved
equal to `+` in `qadd_eq`. -/
def qadd (a b : ℚ) : ℚ := mkRat (a.num * (b.den : ℤ) + b.num * (a.den : ℤ)) (a.den * b.den)

/-- Rational subtraction through `mkRat`; proved equal to `-` in
`qsub_eq`. -/
def qsub (a b : ℚ) : ℚ := mkRat (a.num * (b.den : ℤ) - b.num * (a.den : ℤ)) (a.den * b.den)

/-- Rational multiplication through `mkRat`; proved equal to `*` in
`qmul_eq`. -/
def qmul (a b : ℚ) : ℚ := mkRat (a.num * b.num) (a.den * b.den)

theorem qadd_eq (a b : ℚ) : qadd a b = a + b := by
  have ha : ((a.den : ℚ)) ≠ 0 := by exact_mod_cast a.den_nz
  have hb : ((b.den : ℚ)) ≠ 0 := by exact_mod_cast b.den_nz
  rw [qadd, Rat.mkRat_eq_div]
  push_cast
  conv_rhs => rw [← Rat.num_div_den a, ← Rat.num_div_den b]
  rw [div_add_div _ _ ha hb]
  ring_nf

theorem qsub_eq (a b : ℚ) : qsub a b = a - b := by
  have ha : ((a.den : ℚ)) ≠ 0 := by exact_mod_cast a.den_nz
  have hb : ((b.den : ℚ)) ≠ 0 := by exact_mod_cast b.den_nz
  rw [qsub, Rat.mkRat_eq_div]
  push_cast
  conv_rhs => rw [← Rat.num_div_den a, ← Rat.num_div_den b]
  rw [div_sub_div _ _ ha hb]
  ring_nf

theorem qmul_eq (a b : ℚ) : qmul a b = a * b := by
  rw [qmul, Rat.mkRat_eq_div]
  push_cast
  conv_rhs => rw [← Rat.num_div_den a, ← Rat.num_div_den b]
  rw [div_mul_div_comm]

/-- Float addition; NaN propagates. -/
def Flt.add : Flt → Flt → Flt
  | .num a, .num b => .num (qadd a b)
  | _, _ => .nan

/-- Float subtraction; NaN propagates. -/
def Flt.sub : Flt → Flt → Flt
  | .num a, .num b => .num (qsub a b)
  | _, _ => .nan

/-- Float multiplication; NaN propagates. -/
def Flt.mul : Flt → Flt → Flt
  | .num a, .num b => .num (qmul a b)
  | _, _ => .nan

/-- `fabs`; NaN propagates. -/
def Flt.fabs : Flt → Flt
  | .nan => .nan
  | .num a => .num |a|

/-- C comparison `a < b`: false whenever either operand is NaN. -/
def Flt.lt : Flt → Flt → Bool
  | .num a, .num b => decide (a < b)
  | _, _ => false

/-- C comparison `a <= b`: false whenever either operand is NaN. -/
def Flt.le : Flt → Flt → Bool
  | .num a, .num b => decide (a ≤ b)
  | _, _ => false

/-- C comparison `a != 0.0`: TRUE for NaN (IEEE inequality with NaN). -/
def Flt.neZero : Flt → Bool
  | .nan => true
  | .num a => decide (a ≠ 0)

/-- A `geometry_msgs::Point32` produced for one pixel. -/
structure Point32 where
  x : Flt
  y : Flt
  z : Flt
deriving DecidableEq, Repr

/-- Ground-plane coefficients (a,b,c,d) of `cv::Vec4f ground_plane`,
representing a·x + b·y + c·z + d = 0.  The estimators produce real
coefficients, so NaN is not modelled here. -/
structure Plane where
  a : ℚ
  b : ℚ
  c : ℚ
  d : ℚ
deriving DecidableEq, Repr

/-- The check at the head of the classification phase:
`ground_plane[0] == 0.0 && ground_plane[1] == 0.0 && ground_plane[2] == 0.0 && ground_plane[3] == 0.0`. -/
def Plane.isSentinel (pl : Plane) : Bool :=
  decide (pl.a = 0) && decide (pl.b = 0) && decide (pl.c = 0) && decide (pl.d = 0)

/-- The configuration parameters read in `onInitialize` that the depth
callback and the classifier consult.  The `skip_rays_*` counts are `int`
parameters with nonnegative defaults (20); they are modelled as naturals.
The height bounds live inside the external `ObservationBuffer` and are
not part of the embedded core. -/
structure Config where
  publish_observations : Bool
  observations_threshold : ℚ
  find_ground_plane : Bool
  ground_threshold : ℚ
  clear_nans : Bool
  skip_rays_top : ℕ
  skip_rays_bottom : ℕ
  skip_rays_left : ℕ
  skip_rays_right : ℕ
  clear_with_skipped_rays : Bool

/-- The stored intrinsics matrix `K_` (its informative entries: it is
`[[fx,0,cx],[0,fy,cy],[0,0,1]]`). -/
structure KMat where
  fx : ℚ
  fy : ℚ
  cx : ℚ
  cy : ℚ
deriving DecidableEq, Repr

/-- The fields of `sensor_msgs::CameraInfo` that `cameraInfoCallback`
reads: `P[0]`, `P[2]`, `P[6]` and the two binning factors. -/
structure CameraInfo where
  P0 : ℚ
  P2 : ℚ
  P6 : ℚ
  binning_x : ℕ
  binning_y : ℕ

/-- `FetchDepthLayer::cameraInfoCallback`: under the `mutex_K_` lock,
replace `K_` wholesale when `binning_x == binning_y` (dividing by the
binning factor when it is positive, using the raw values when it is 0),
and leave `K_` untouched (only `ROS_ERROR`) on a binning mismatch.
The first argument is the stored `K_` (`none` while still empty). -/
def cameraInfoCallback (K : Option KMat) (msg : CameraInfo) : Option KMat :=
  if msg.binning_x = msg.binning_y then
    if 0 < msg.binning_x then
      some ⟨msg.P0 / msg.binning_x, msg.P0 / msg.binning_x,
            msg.P2 / msg.binning_x, msg.P6 / msg.binning_x⟩
    else
      some ⟨msg.P0, msg.P0, msg.P2, msg.P6⟩
  else
    K

/-- The decoded 32FC1 depth image of one frame plus its header fields. -/
structure DepthImage where
  rows : ℕ
  cols : ℕ
  data : ℕ → ℕ → Flt
  frame_id : String

/-- The `clear_nans_` preprocessing loop: every NaN depth sample becomes
25.0; all other samples (including exact 0) are left unchanged. -/
def clearNansImage (img : DepthImage) : DepthImage :=
  { img with data := fun i j => if (img.data i j).isNaN then Flt.num 25 else img.data i j }

/-- A sample is an invalid depth reading per the data model: depth 0 or
NaN. -/
def isInvalidDepth : Flt → Bool
  | .nan => true
  | .num q => decide (q = 0)

/-- The 3D point grid `points3d` (after `cv::split` into channels). -/
structure Grid where
  rows : ℕ
  cols : ℕ
  data : ℕ → ℕ → Point32

/-- Pinhole back-projection of one depth sample, as `cv::depthTo3d`
computes it: x = (j−cx)·d/fx, y = (i−cy)·d/fy, z = d, with NaN depth
propagating into all three coordinates. -/
def backproject (k : KMat) (i j : ℕ) : Flt → Point32
  | .nan => ⟨.nan, .nan, .nan⟩
  | .num d => ⟨.num (((j : ℚ) - k.cx) * d / k.fx), .num (((i : ℚ) - k.cy) * d / k.fy), .num d⟩

/-- `cv::depthTo3d(cv_ptr->image, K_, points3d)`. -/
def depthTo3d (k : KMat) (img : DepthImage) : Grid :=
  ⟨img.rows, img.cols, fun i j => backproject k i j (img.data i j)⟩

/-- Neighbour access `channels[ch].at<float>(i+x, j+y)` with the explicit
bounds check the specification mandates for the reimplementation: an
out-of-range index yields the all-zero (invalid, never supporting)
point. -/
def Grid.atZ (g : Grid) (i j : ℤ) : Point32 :=
  if 0 ≤ i ∧ i < (g.rows : ℤ) ∧ 0 ≤ j ∧ j < (g.cols : ℤ) then
    g.data i.toNat j.toNat
  else
    ⟨Flt.num 0, Flt.num 0, Flt.num 0⟩

/-- The point-validity test of the classification loop:
`x != 0.0 && y != 0.0 && z != 0.0 && !isnan(x) && !isnan(y) && !isnan(z)`. -/
def validPoint (p : Point32) : Bool :=
  p.x.neZero && p.y.neZero && p.z.neZero && !p.x.isNaN && !p.y.isNaN && !p.z.isNaN

/-- The edge-skip test
`i < skip_rays_top_ || i >= rows - skip_rays_bottom_ || j < skip_rays_left_ || j >= cols - skip_rays_right_`.
In the C++ source `i`,`j` are `size_t` and `rows - skip_rays_bottom_` is
`int` arithmetic converted to `size_t` for the comparison, so a negative
difference wraps to a huge value and the comparison is false; the
conjuncts `0 ≤ rows - bottom` reproduce that conversion exactly. -/
def isEdge (cfg : Config) (rows cols i j : ℕ) : Bool :=
  decide (i < cfg.skip_rays_top) ||
  (decide (0 ≤ (rows : ℤ) - (cfg.skip_rays_bottom : ℤ)) &&
   decide ((rows : ℤ) - (cfg.skip_rays_bottom : ℤ) ≤ (i : ℤ))) ||
  decide (j < cfg.skip_rays_left) ||
  (decide (0 ≤ (cols : ℤ) - (cfg.skip_rays_right : ℤ)) &&
   decide ((cols : ℤ) - (cfg.skip_rays_right : ℤ) ≤ (j : ℤ)))

/-- The ground-membership test
`fabs(a·x + b·y + c·z + d) <= observations_threshold_`, with C float
comparison semantics (false if the point has NaN coordinates). -/
def nearGround (pl : Plane) (p : Point32) (thr : ℚ) : Bool :=
  Flt.le
    (Flt.fabs
      (Flt.add
        (Flt.add
          (Flt.add (Flt.mul (Flt.num pl.a) p.x) (Flt.mul (Flt.num pl.b) p.y))
          (Flt.mul (Flt.num pl.c) p.z))
        (Flt.num pl.d)))
    (Flt.num thr)

/-- The constant 0.1 of the outlier filter, written with `mkRat` so it
evaluates by kernel reduction; `pointOne_eq` checks it is 1/10. -/
def pointOne : ℚ := mkRat 1 10

theorem pointOne_eq : pointOne = 1 / 10 := by
  rw [pointOne, Rat.mkRat_eq_div]
  norm_num

/-- A neighbour `q` supports `p` when it passes the same validity test and
each coordinate is strictly within 0.1 of `p`'s
(`fabs(px - x) < 0.1` etc.). -/
def neighborSupports (p q : Point32) : Bool :=
  validPoint q &&
  Flt.lt (Flt.fabs (Flt.sub q.x p.x)) (Flt.num pointOne) &&
  Flt.lt (Flt.fabs (Flt.sub q.y p.y)) (Flt.num pointOne) &&
  Flt.lt (Flt.fabs (Flt.sub q.z p.z)) (Flt.num pointOne)

/-- The 8 neighbour offsets visited by the double loop
`x ∈ {-1,0,1}, y ∈ {-1,0,1}, (x,y) ≠ (0,0)`, in loop order. -/
def nbrOffsets : List (ℤ × ℤ) :=
  [(-1,-1), (-1,0), (-1,1), (0,-1), (0,1), (1,-1), (1,0), (1,1)]

/-- `num_valid`: the number of supporting neighbours of the point at
(i,j). -/
def supportCount (g : Grid) (i j : ℕ) (p : Point32) : ℕ :=
  (nbrOffsets.filter (fun o => neighborSupports p (g.atZ ((i : ℤ) + o.1) ((j : ℤ) + o.2)))).length

/-- One iteration of the classification double loop for pixel (i,j):
the (clearing, marking) points it appends.  Both policy branches for the
clearing insertion are kept literally: before the edge check when
`clear_with_skipped_rays_`, after it otherwise. -/
def processPixel (cfg : Config) (g : Grid) (pl : Plane) (i j : ℕ) :
    List Point32 × List Point32 :=
  if validPoint (g.data i j) then
    if isEdge cfg g.rows g.cols i j then
      ((if cfg.clear_with_skipped_rays then [g.data i j] else []), [])
    else
      ((if cfg.clear_with_skipped_rays then [g.data i j] else []) ++
         (if cfg.clear_with_skipped_rays then [] else [g.data i j]),
       if nearGround pl (g.data i j) cfg.observations_threshold then []
       else if 7 ≤ supportCount g i j (g.data i j) then [g.data i j] else [])
  else
    ([], [])

/-- The whole classification double loop: `clearing_points` and
`marking_points` accumulated over all pixels in row-major order. -/
def classifyFrame (cfg : Config) (g : Grid) (pl : Plane) :
    List Point32 × List Point32 :=
  ((List.range g.rows).flatMap (fun i =>
      (List.range g.cols).flatMap (fun j => (processPixel cfg g pl i j).1)),
   (List.range g.rows).flatMap (fun i =>
      (List.range g.cols).flatMap (fun j => (processPixel cfg g pl i j).2)))

/-- The tf transform provider used in reference-frame mode, as an oracle:
`transformVectorZ1 frame` rotates the `base_link` unit vector (0,0,1)
into `frame`; `lookupOriginZ frame` is the z of the origin of
`lookupTransform("base_link", frame, Time(0))`.  `none` models the tf
call throwing (unknown frame / no data). -/
structure TfOracle where
  transformVectorZ1 : String → Option (ℚ × ℚ × ℚ)
  lookupOriginZ : String → Option ℚ

/-- The candidate-selection loop of geometric mode: the first plane whose
coefficients satisfy `fabs(0.0 - a) <= thr && fabs(1.0 + b) <= thr &&
fabs(0.0 - c) <= thr`. -/
def qualifiesAsGround (gthr : ℚ) (pl : Plane) : Bool :=
  decide (|0 - pl.a| ≤ gthr) && decide (|1 + pl.b| ≤ gthr) && decide (|0 - pl.c| ≤ gthr)

/-- Geometric-mode plane choice: `ground_plane` is zero-initialised
(`cv::Vec4f` default) and overwritten by the first qualifying candidate,
so an empty or non-qualifying candidate list leaves the sentinel. -/
def selectGroundPlane (gthr : ℚ) (cands : List Plane) : Plane :=
  match cands.find? (qualifiesAsGround gthr) with
  | some pl => pl
  | none => ⟨0, 0, 0, 0⟩

/-- Ground-plane determination for one frame.  In geometric mode the
external estimator's candidate list `cands` is filtered; in
reference-frame mode the two tf calls run in source order and `none`
models the uncaught `tf::TransformException` aborting the callback. -/
def computeGroundPlane (cfg : Config) (tf : TfOracle) (cands : List Plane)
    (frame : String) : Option Plane :=
  if cfg.find_ground_plane then
    some (selectGroundPlane cfg.ground_threshold cands)
  else
    match tf.transformVectorZ1 frame with
    | none => none
    | some v =>
      match tf.lookupOriginZ frame with
      | none => none
      | some z => some ⟨v.1, v.2.1, v.2.2, z⟩

/-- How a frame's processing ended early, when it did. -/
inductive Abort where
  /-- `K_.empty()`: camera info not yet received. -/
  | noIntrinsics
  /-- an uncaught `tf::TransformException` escaped the callback. -/
  | tfException
  /-- the all-zero ground plane failed the sentinel check. -/
  | sentinelPlane
  /-- `convertPointCloudToPointCloud2` returned false. -/
  | convertFail
deriving DecidableEq, Repr

/-- Everything observable about one invocation of the depth callback:
how it ended, the two accumulated point sets, and whether
`bufferCloud` was invoked on each `ObservationBuffer`. -/
structure FrameOutcome where
  abort : Option Abort
  clearing : List Point32
  marking : List Point32
  clearingBuffered : Bool
  markingBuffered : Bool
deriving DecidableEq, Repr

/-- The hand-off tail of the callback (source lines 358–395): for each of
clearing then marking, if the set is non-empty, convert it (a false
return drops the message and returns from the callback) and on success
lock/bufferCloud/unlock the channel's buffer.  `conv` is the external
`convertPointCloudToPointCloud2` modelled as a success predicate. -/
def handoffPhase (conv : List Point32 → Bool) (clr mrk : List Point32) : FrameOutcome :=
  if 0 < clr.length then
    if conv clr then
      if 0 < mrk.length then
        if conv mrk then ⟨none, clr, mrk, true, true⟩
        else ⟨some Abort.convertFail, clr, mrk, true, false⟩
      else ⟨none, clr, mrk, true, false⟩
    else ⟨some Abort.convertFail, clr, mrk, false, false⟩
  else
    if 0 < mrk.length then
      if conv mrk then ⟨none, clr, mrk, false, true⟩
      else ⟨some Abort.convertFail, clr, mrk, false, false⟩
    else ⟨none, clr, mrk, false, false⟩

/-- `FetchDepthLayer::depthImageCallback` for one frame.  `K` is the
stored intrinsics (`none` while empty), `tf` the transform provider,
`cands` the geometric estimator's candidate planes, `conv` the cloud
conversion.  The cv_bridge decode is modelled as already done (`msg` is
the decoded 32FC1 image); a decode failure drops the frame before any of
the behaviour studied here. -/
def depthImageCallback (cfg : Config) (K : Option KMat) (tf : TfOracle)
    (cands : List Plane) (conv : List Point32 → Bool) (msg : DepthImage) :
    FrameOutcome :=
  match K with
  | none => ⟨some Abort.noIntrinsics, [], [], false, false⟩
  | some k =>
    match computeGroundPlane cfg tf cands msg.frame_id with
    | none => ⟨some Abort.tfException, [], [], false, false⟩
    | some pl =>
      if pl.isSentinel then
        ⟨some Abort.sentinelPlane, [], [], false, false⟩
      else
        handoffPhase conv
          (classifyFrame cfg (depthTo3d k (if cfg.clear_nans then clearNansImage msg else msg)) pl).1
          (classifyFrame cfg (depthTo3d k (if cfg.clear_nans then clearNansImage msg else msg)) pl).2

/-! ## Helper lemmas about the classification loop -/

theorem mem_classifyFrame_marking {cfg : Config} {g : Grid} {pl : Plane} {q : Point32} :
    q ∈ (classifyFrame cfg g pl).2 ↔
      ∃ i, i < g.rows ∧ ∃ j, j < g.cols ∧ q ∈ (processPixel cfg g pl i j).2 := by
  simp [classifyFrame, List.mem_flatMap, List.mem_range]

theorem mem_classifyFrame_clearing {cfg : Config} {g : Grid} {pl : Plane} {q : Point32} :
    q ∈ (classifyFrame cfg g pl).1 ↔
      ∃ i, i < g.rows ∧ ∃ j, j < g.cols ∧ q ∈ (processPixel cfg g pl i j).1 := by
  simp [classifyFrame, List.mem_flatMap, List.mem_range]

/-- Anatomy of a marking insertion: a point lands in the per-pixel marking
contribution exactly when it is the pixel's point and that point is
valid, non-edge, non-floor, and has at least 7 supporting neighbours. -/
theorem mem_processPixel_marking {cfg : Config} {g : Grid} {pl : Plane} {i j : ℕ}
    {q : Point32} (h : q ∈ (processPixel cfg g pl i j).2) :
    q = g.data i j ∧ validPoint (g.data i j) = true ∧
    isEdge cfg g.rows g.cols i j = false ∧
    nearGround pl (g.data i j) cfg.observations_threshold = false ∧
    7 ≤ supportCount g i j (g.data i j) := by
  by_cases hv : validPoint (g.data i j) = true
  · by_cases he : isEdge cfg g.rows g.cols i j = true
    · simp [processPixel, hv, he] at h
    · by_cases hfl : nearGround pl (g.data i j) cfg.observations_threshold = true
      · simp [processPixel, hv, he, hfl] at h
      · by_cases hsc : 7 ≤ supportCount g i j (g.data i j)
        · simp [processPixel, hv, he, hfl, hsc] at h
          exact ⟨h, hv, by simpa using he, by simpa using hfl, hsc⟩
        · simp [processPixel, hv, he, hfl, hsc] at h
  · simp [processPixel, hv] at h

/-- The converse: a valid, non-edge, non-floor, well-supported pixel does
put its point into the per-pixel marking contribution. -/
theorem processPixel_marking_of (cfg : Config) (g : Grid) (pl : Plane) (i j : ℕ)
    (hv : validPoint (g.data i j) = true)
    (he : isEdge cfg g.rows g.cols i j = false)
    (hfl : nearGround pl (g.data i j) cfg.observations_threshold = false)
    (hsc : 7 ≤ supportCount g i j (g.data i j)) :
    (processPixel cfg g pl i j).2 = [g.data i j] := by
  simp [processPixel, hv, he, hfl, hsc]

/-- A valid, non-edge pixel contributes its point to clearing under both
values of the policy flag (before the edge check when the flag is set,
after it otherwise). -/
theorem processPixel_clearing_nonedge (cfg : Config) (g : Grid) (pl : Plane) (i j : ℕ)
    (hv : validPoint (g.data i j) = true)
    (he : isEdge cfg g.rows g.cols i j = false) :
    g.data i j ∈ (processPixel cfg g pl i j).1 := by
  by_cases hb : cfg.clear_with_skipped_rays <;>
    simp [processPixel, hv, he, hb]

/-! ## Concrete fixtures for witnesses and counterexamples -/

/-- A valid interior point (1,1,1). -/
def pW : Point32 := ⟨Flt.num 1, Flt.num 1, Flt.num 1⟩

/-- A 3×3 grid holding `pW` everywhere: pixel (1,1) is interior and has 8
identical (hence supporting) neighbours. -/
def gW : Grid := ⟨3, 3, fun _ _ => pW⟩

/-- Geometric-mode configuration with 1-pixel skip margins, threshold
0.06, policy flag off. -/
def cfgW : Config := ⟨false, mkRat 6 100, true, mkRat 9 10, false, 1, 1, 1, 1, false⟩

/-- Same as `cfgW` but with `clear_with_skipped_rays` on. -/
def cfgE : Config := ⟨false, mkRat 6 100, true, mkRat 9 10, false, 1, 1, 1, 1, true⟩

/-- Reference-frame-mode configuration (`find_ground_plane` off). -/
def cfgR : Config := ⟨false, mkRat 6 100, false, mkRat 9 10, false, 1, 1, 1, 1, false⟩

/-- A plane far from `pW` (distance 6 > 0.06). -/
def plW : Plane := ⟨0, 0, 1, 5⟩

/-- A plane containing `pW` exactly (1·z − 1 = 0). -/
def plF : Plane := ⟨0, 0, 1, -1⟩

/-- Unit-focal intrinsics. -/
def kW : KMat := ⟨1, 1, 0, 0⟩

/-- A transform provider with no data: every lookup fails (throws). -/
def tfW : TfOracle := ⟨fun _ => none, fun _ => none⟩

/-- A conversion that always succeeds (the behaviour of the real
`sensor_msgs::convertPointCloudToPointCloud2`). -/
def convT : List Point32 → Bool := fun _ => true

/-- A conversion succeeding only on 2-element clouds, to exercise the
failure path. -/
def convLen2 : List Point32 → Bool := fun l => decide (l.length = 2)

/-- A 1×1 depth frame of constant depth 1. -/
def msgW : DepthImage := ⟨1, 1, fun _ _ => Flt.num 1, "head_camera"⟩

/-- A 1×1 depth frame whose only sample is 0 (an invalid reading). -/
def imgZeroW : DepthImage := ⟨1, 1, fun _ _ => Flt.num 0, "head_camera"⟩

/-- A 1×1 depth frame whose only sample is NaN. -/
def imgNanW : DepthImage := ⟨1, 1, fun _ _ => Flt.nan, "head_camera"⟩

/-! ## Claim theorems -/

/-- Claim C1: whenever ground-plane determination (either strategy)
produces the all-zero sentinel plane, the frame is dropped at the
sentinel check, before any point classification: both point sets are
empty and `bufferCloud` is invoked on neither observation buffer. -/
theorem sentinel_plane_short_circuit (cfg : Config) (k : KMat) (tf : TfOracle)
    (cands : List Plane) (conv : List Point32 → Bool) (msg : DepthImage) (pl : Plane)
    (hpl : computeGroundPlane cfg tf cands msg.frame_id = some pl)
    (hs : pl.isSentinel = true) :
    depthImageCallback cfg (some k) tf cands conv msg =
      ⟨some Abort.sentinelPlane, [], [], false, false⟩ := by
  simp [depthImageCallback, hpl, hs]

/-- Witness for C1: geometric mode with no candidate planes leaves the
zero-initialised sentinel, and the frame is dropped with no points and
no hand-off. -/
theorem sentinel_plane_short_circuit_witness :
    depthImageCallback cfgW (some kW) tfW [] convT msgW =
      ⟨some Abort.sentinelPlane, [], [], false, false⟩ :=
  sentinel_plane_short_circuit cfgW kW tfW [] convT msgW ⟨0, 0, 0, 0⟩ (by decide) (by decide)

/-- Counterexample to claim C2 as stated: with `find_ground_plane` off
and a failing transform lookup, the callback is aborted by the escaping
`tf` exception (`Abort.tfException`), not by the sentinel-plane check —
the ground-plane result is never set to the sentinel and the sentinel
drop path is not taken. -/
theorem tf_failure_not_sentinel_path_cex :
    (depthImageCallback cfgR (some kW) tfW [] convT msgW).abort = some Abort.tfException ∧
    ¬ (depthImageCallback cfgR (some kW) tfW [] convT msgW).abort = some Abort.sentinelPlane := by
  decide

/-- Claim C2 (amended): in reference-frame mode a transform lookup
failure aborts the frame via the uncaught `tf::TransformException`
(there is no try/catch in the callback), not via the sentinel-plane
path; no points are produced and the hand-off is not invoked for either
channel. -/
theorem tf_failure_aborts_frame (cfg : Config) (k : KMat) (tf : TfOracle)
    (cands : List Plane) (conv : List Point32 → Bool) (msg : DepthImage)
    (hmode : cfg.find_ground_plane = false)
    (hfail : tf.transformVectorZ1 msg.frame_id = none ∨
             tf.lookupOriginZ msg.frame_id = none) :
    depthImageCallback cfg (some k) tf cands conv msg =
      ⟨some Abort.tfException, [], [], false, false⟩ := by
  have hnone : computeGroundPlane cfg tf cands msg.frame_id = none := by
    rcases hfail with h | h
    · simp [computeGroundPlane, hmode, h]
    · cases htv : tf.transformVectorZ1 msg.frame_id <;>
        simp [computeGroundPlane, hmode, htv, h]
  simp [depthImageCallback, hnone]

/-- Witness for the amended C2. -/
theorem tf_failure_aborts_frame_witness :
    depthImageCallback cfgR (some kW) tfW [] convT msgW =
      ⟨some Abort.tfException, [], [], false, false⟩ :=
  tf_failure_aborts_frame cfgR kW tfW [] convT msgW (by decide) (Or.inl (by decide))

/-- Counterexample to claim C3 as stated: with `clear_nans` on, a depth
sample equal to 0 is NOT replaced by 25.0 — it survives the
preprocessing pass unchanged and is still an invalid sample in the grid
handed to the 3D conversion. -/
theorem clear_nans_zero_survives_cex :
    (clearNansImage imgZeroW).data 0 0 = Flt.num 0 ∧
    isInvalidDepth ((clearNansImage imgZeroW).data 0 0) = true := by
  decide

/-- Claim C3 (amended): the `clear_nans` pass replaces exactly the NaN
samples with the sentinel 25.0 (so no NaN remains), and leaves every
non-NaN sample — including invalid zero depths — unchanged. -/
theorem clear_nans_replaces_only_nans (img : DepthImage) (i j : ℕ) :
    ((clearNansImage img).data i j).isNaN = false ∧
    ((img.data i j).isNaN = true → (clearNansImage img).data i j = Flt.num 25) ∧
    ((img.data i j).isNaN = false → (clearNansImage img).data i j = img.data i j) := by
  cases h : img.data i j <;> simp [clearNansImage, h, Flt.isNaN]

/-- Witness for the amended C3: a NaN sample becomes 25.0. -/
theorem clear_nans_replaces_only_nans_witness :
    (clearNansImage imgNanW).data 0 0 = Flt.num 25 :=
  (clear_nans_replaces_only_nans imgNanW 0 0).2.1 (by decide)

/-- Claim C4: for a valid point at an edge pixel, it is added to clearing
iff `clear_with_skipped_rays` is on, and it is never added to marking;
a valid point at a non-edge pixel is added to clearing under both
policies. -/
theorem edge_clearing_policy (cfg : Config) (g : Grid) (pl : Plane) (i j : ℕ)
    (hv : validPoint (g.data i j) = true) :
    (isEdge cfg g.rows g.cols i j = true →
      ((g.data i j ∈ (processPixel cfg g pl i j).1 ↔ cfg.clear_with_skipped_rays = true) ∧
       (processPixel cfg g pl i j).2 = [])) ∧
    (isEdge cfg g.rows g.cols i j = false →
      g.data i j ∈ (processPixel cfg g pl i j).1) := by
  constructor
  · intro he
    constructor
    · by_cases hb : cfg.clear_with_skipped_rays <;> simp [processPixel, hv, he, hb]
    · simp [processPixel, hv, he]
  · intro he
    exact processPixel_clearing_nonedge cfg g pl i j hv he

/-- Witness for C4: with the policy on, the valid edge pixel (0,0) of the
3×3 grid contributes its point to clearing and nothing to marking. -/
theorem edge_clearing_policy_witness :
    pW ∈ (processPixel cfgE gW plW 0 0).1 ∧ (processPixel cfgE gW plW 0 0).2 = [] := by
  have h := (edge_clearing_policy cfgE gW plW 0 0 (by decide)).1 (by decide)
  exact ⟨h.1.mpr (by decide), h.2⟩

/-- Claim C5: a valid, non-edge, non-floor point is marked iff at least 7
of its 8 neighbours support it; in particular every marked point of a
frame has ≥ 7 supporting neighbours at its pixel, so a point with zero
support never appears in marking. -/
theorem marking_support_filter (cfg : Config) (g : Grid) (pl : Plane) :
    (∀ i j, validPoint (g.data i j) = true →
      isEdge cfg g.rows g.cols i j = false →
      nearGround pl (g.data i j) cfg.observations_threshold = false →
      ((g.data i j ∈ (processPixel cfg g pl i j).2 ↔ 7 ≤ supportCount g i j (g.data i j)) ∧
       (supportCount g i j (g.data i j) = 0 → g.data i j ∉ (processPixel cfg g pl i j).2))) ∧
    (∀ q ∈ (classifyFrame cfg g pl).2,
      ∃ a b, a < g.rows ∧ b < g.cols ∧ q = g.data a b ∧ 7 ≤ supportCount g a b q) := by
  constructor
  · intro i j hv he hfl
    constructor
    · constructor
      · intro hmem
        exact (mem_processPixel_marking hmem).2.2.2.2
      · intro hsc
        rw [processPixel_marking_of cfg g pl i j hv he hfl hsc]
        exact List.mem_singleton_self _
    · intro h0 hmem
      have h7 := (mem_processPixel_marking hmem).2.2.2.2
      omega
  · intro q hq
    rcases mem_classifyFrame_marking.mp hq with ⟨a, ha, b, hb, hm⟩
    rcases mem_processPixel_marking hm with ⟨rfl, hv, he, hfl, hsc⟩
    exact ⟨a, b, ha, hb, rfl, hsc⟩

/-- Witness for C5: the interior pixel (1,1) of the constant 3×3 grid has
support count 8 ≥ 7 and is marked. -/
theorem marking_support_filter_witness : pW ∈ (processPixel cfgW gW plW 1 1).2 := by
  have h := ((marking_support_filter cfgW gW plW).1 1 1 (by decide) (by decide) (by decide)).1
  exact h.mpr (by decide)

/-- Claim C6: a valid, non-edge point within `observation_separation_threshold`
of a non-sentinel ground plane is treated as floor: its pixel contributes
nothing to marking, regardless of neighbour support. -/
theorem ground_membership_skips_marking (cfg : Config) (g : Grid) (pl : Plane) (i j : ℕ)
    (hns : pl.isSentinel = false)
    (hv : validPoint (g.data i j) = true)
    (he : isEdge cfg g.rows g.cols i j = false)
    (hfl : nearGround pl (g.data i j) cfg.observations_threshold = true) :
    (processPixel cfg g pl i j).2 = [] ∧ g.data i j ∉ (processPixel cfg g pl i j).2 := by
  constructor
  · simp [processPixel, hv, he, hfl]
  · simp [processPixel, hv, he, hfl]

/-- Witness for C6: `pW` lies exactly on the plane z = 1 (distance 0) and
its pixel contributes nothing to marking although all 8 neighbours
support it. -/
theorem ground_membership_skips_marking_witness :
    (processPixel cfgW gW plF 1 1).2 = [] :=
  (ground_membership_skips_marking cfgW gW plF 1 1 (by decide) (by decide) (by decide)
    (by decide)).1

/-- Claim C7: a camera-info update with mismatched binning factors is
rejected atomically (stored intrinsics unchanged); with equal binning
factors the stored intrinsics are replaced wholesale, divided by the
binning factor when it is positive and raw when it is zero. -/
theorem camera_info_binning (K : Option KMat) (msg : CameraInfo) :
    (msg.binning_x ≠ msg.binning_y → cameraInfoCallback K msg = K) ∧
    (msg.binning_x = msg.binning_y →
      cameraInfoCallback K msg =
        some (if 0 < msg.binning_x then
                ⟨msg.P0 / (msg.binning_x : ℚ), msg.P0 / (msg.binning_x : ℚ),
                 msg.P2 / (msg.binning_x : ℚ), msg.P6 / (msg.binning_x : ℚ)⟩
              else ⟨msg.P0, msg.P0, msg.P2, msg.P6⟩)) := by
  constructor
  · intro h
    simp [cameraInfoCallback, h]
  · intro h
    unfold cameraInfoCallback
    rw [if_pos h, apply_ite some]

/-- Witness for C7: a mismatched update (binning 1 vs 2) leaves the
stored intrinsics exactly as they were. -/
theorem camera_info_binning_witness :
    cameraInfoCallback (some kW) ⟨100, 50, 40, 1, 2⟩ = some kW :=
  (camera_info_binning (some kW) ⟨100, 50, 40, 1, 2⟩).1 (by decide)

/-- Claim C8: when the conversions succeed, `bufferCloud` is invoked on a
channel's buffer iff that channel's point set is non-empty, and an empty
channel is not an error (no abort). -/
theorem handoff_iff_nonempty (conv : List Point32 → Bool) (clr mrk : List Point32)
    (hc : conv clr = true) (hm : conv mrk = true) :
    ((handoffPhase conv clr mrk).clearingBuffered = true ↔ clr ≠ []) ∧
    ((handoffPhase conv clr mrk).markingBuffered = true ↔ mrk ≠ []) ∧
    (handoffPhase conv clr mrk).abort = none := by
  cases clr with
  | nil =>
    cases mrk with
    | nil => simp [handoffPhase]
    | cons b s => simp [handoffPhase, hm]
  | cons a t =>
    cases mrk with
    | nil => simp [handoffPhase, hc]
    | cons b s => simp [handoffPhase, hc, hm]

/-- Witness for C8: a non-empty clearing set is buffered, an empty
marking set is not, and neither is an error. -/
theorem handoff_iff_nonempty_witness :
    ((handoffPhase convT [pW] []).clearingBuffered = true ↔ [pW] ≠ ([] : List Point32)) ∧
    ((handoffPhase convT [pW] []).markingBuffered = true ↔ ([] : List Point32) ≠ []) ∧
    (handoffPhase convT [pW] []).abort = none :=
  handoff_iff_nonempty convT [pW] [] rfl rfl

/-- Claim C9: every point of the marking set also appears in the clearing
set of the same frame, under both values of `clear_with_skipped_rays`. -/
theorem marking_subset_clearing (cfg : Config) (g : Grid) (pl : Plane) (q : Point32)
    (hq : q ∈ (classifyFrame cfg g pl).2) : q ∈ (classifyFrame cfg g pl).1 := by
  rcases mem_classifyFrame_marking.mp hq with ⟨i, hi, j, hj, hm⟩
  rcases mem_processPixel_marking hm with ⟨rfl, hv, he, _, _⟩
  exact mem_classifyFrame_clearing.mpr
    ⟨i, hi, j, hj, processPixel_clearing_nonedge cfg g pl i j hv he⟩

/-- Witness for C9: the marked interior point of the 3×3 fixture is in
the frame's clearing set. -/
theorem marking_subset_clearing_witness : pW ∈ (classifyFrame cfgW gW plW).1 :=
  marking_subset_clearing cfgW gW plW pW (by decide)

/-- Claim C10: if the clearing set is non-empty and its conversion fails,
the whole frame is abandoned — the marking hand-off is skipped too, even
though the marking set is non-empty and its own conversion would have
succeeded; neither buffer receives the frame. -/
theorem conversion_failure_aborts_handoff (conv : List Point32 → Bool)
    (clr mrk : List Point32) (hclr : clr ≠ []) (hcf : conv clr = false)
    (hmrk : mrk ≠ []) (hmc : conv mrk = true) :
    handoffPhase conv clr mrk = ⟨some Abort.convertFail, clr, mrk, false, false⟩ := by
  have h1 : 0 < clr.length := List.length_pos.mpr hclr
  simp [handoffPhase, h1, hcf]

/-- Witness for C10: with a converter succeeding only on 2-point clouds,
the 1-point clearing set fails conversion and the 2-point marking set is
never buffered. -/
theorem conversion_failure_aborts_handoff_witness :
    handoffPhase convLen2 [pW] [pW, pW] =
      ⟨some Abort.convertFail, [pW], [pW, pW], false, false⟩ :=
  conversion_failure_aborts_handoff convLen2 [pW] [pW, pW] (by decide) (by decide)
    (by decide) (by decide)
